import Mathlib

/-!
Verification development for the FEDn reducer control module
(`fedn/clients/reducer/control.py`).

The orchestrator (`ReducerControl`) runs federated rounds: it filters the
registered combiners through a participation policy, dispatches compute
plans, waits (sleep-polling) until the dispatched combiners report a model
id different from the current global latest id, reduces the updated
combiners' models with an incremental mean, and commits the result.

We embed the module shallowly: the mutable object state becomes the record
`RState`, remote combiner behaviour becomes data carried by `Combiner`
(its model id over poll times, its pullable payload), and fallible Python
code (`list.remove`, the unbound local `model` in `reduce`) is embedded
with `Except`.  Parts of the repository imported by the module but not
part of it (the `ReducerState` enum, the statestore's latest pointer, the
S3 repository, the Keras helper) are modelled from the specification and
marked as such.
-/

instance instDecEqExcept {ε α : Type} [DecidableEq ε] [DecidableEq α] :
    DecidableEq (Except ε α) := fun a b =>
  match a, b with
  | Except.ok x, Except.ok y =>
    if h : x = y then isTrue (by rw [h])
    else isFalse (by intro hh; injection hh; contradiction)
  | Except.ok _, Except.error _ => isFalse (by intro hh; injection hh)
  | Except.error _, Except.ok _ => isFalse (by intro hh; injection hh)
  | Except.error x, Except.error y =>
    if h : x = y then isTrue (by rw [h])
    else isFalse (by intro hh; injection hh; contradiction)

namespace ReducerControl

/-- Modelled from the spec: the `ReducerState` enum imported from
`.state` (RoundState in the spec): `idle`, `instructing` (dispatching),
`monitoring` (awaiting-convergence). -/
inductive ReducerState where
  | idle
  | instructing
  | monitoring
deriving DecidableEq, Repr

/-- Model identifiers.  Distinct constructors keep the provenance of an id
visible: `ext` for ids originating outside the orchestrator (seed models,
combiner-produced local models), `repo` for ids assigned by the model
repository's `set_model` (fresh, drawn from a counter), `uuid` for the
`uuid.uuid4()` values generated inside `round`. -/
inductive MId where
  | ext (n : Nat)
  | repo (n : Nat)
  | uuid (n : Nat)
deriving DecidableEq, Repr

/-- What a combiner's `report()` returns: at least the number of active
clients (`combiner_state['nr_active_clients']`). -/
structure CombinerState where
  nr_active_clients : Nat
deriving DecidableEq, Repr

/-- The orchestrator's view of one remote combiner.  Remote behaviour is
data: `idSchedule`/`idFinal` give the id `get_model_id()` reports at each
poll instant, `model_data` is the payload `get_model()` returns (none when
the combiner yields no usable artifact).  Payloads are rationals: the
numeric content of a serialized Keras model is out of scope. -/
structure Combiner where
  name : String
  nr_active_clients : Nat
  idSchedule : List (Option MId)
  idFinal : Option MId
  model_data : Option Rat
deriving DecidableEq, Repr

/-- `combiner.report()`. -/
def Combiner.report (c : Combiner) : CombinerState :=
  ⟨c.nr_active_clients⟩

/-- `combiner.get_model_id()` at poll instant `t` (the wait loop polls at
a fixed interval of one time unit, so instants are naturals). -/
def Combiner.idAt (c : Combiner) (t : Nat) : Option MId :=
  c.idSchedule.getD t c.idFinal

/-- `combiner.get_model()`: the payload pulled at reduce time. -/
def Combiner.get_model (c : Combiner) : Option Rat :=
  c.model_data

/-- A committed global artifact descriptor.  Modelled from the spec: the
statestore's artifact record (`GlobalArtifact`) keeps, besides the fresh
`id`, the `parent` — the id the new artifact superseded; the statestore
itself is not part of this module. -/
structure Artifact where
  id : MId
  parent : Option MId
deriving DecidableEq, Repr

/-- The mutable state of `ReducerControl` together with the external
stores it drives: `state` (the private `__state`), `combiners` (the
registry), `latest` (the statestore's durable latest pointer, `none`
before seeding), `stored` (blobs persisted by the repository's
`set_model`), `repoCtr`/`uuidCtr` (fresh-id counters for repository ids
and `uuid.uuid4()` draws), `artifacts` (committed artifact descriptors,
modelled from the spec). -/
structure RState where
  state : ReducerState
  combiners : List Combiner
  latest : Option MId
  stored : List Rat
  repoCtr : Nat
  uuidCtr : Nat
  artifacts : List Artifact
deriving DecidableEq, Repr

/-- A compute plan: a deep copy of the round config plus
`rounds := 1`, `task`, and the pinned `model_id`. -/
inductive Task where
  | training
  | validation
deriving DecidableEq, Repr

/-- The round configuration handed to `instruct`/`round`. -/
structure Config where
  rounds : Nat
  round_timeout : Nat
  clients_required : Nat
deriving DecidableEq, Repr

structure ComputePlan where
  rounds : Nat
  round_timeout : Nat
  clients_required : Nat
  task : Task
  model_id : Option MId
deriving DecidableEq, Repr

/-- `ReducerControl.check_round_participation_policy`: a combiner
participates iff `clients_required <= nr_active_clients`. -/
def check_round_participation_policy (compute_plan : ComputePlan)
    (combiner_state : CombinerState) : Bool :=
  if compute_plan.clients_required ≤ combiner_state.nr_active_clients then
    true
  else
    false

/-- `ReducerControl.check_round_start_policy`: true iff the participating
list is non-empty. -/
def check_round_start_policy {α : Type} (combiners : List α) : Bool :=
  if combiners.length > 0 then true else false

/-- `ReducerControl.check_round_validity_policy`: true iff the updated
list is non-empty. -/
def check_round_validity_policy {α : Type} (combiners : List α) : Bool :=
  if combiners.length > 0 then true else false

/-- `ReducerControl._out_of_sync(combiners)` read at poll instant `t`:
the combiners whose reported model id differs from the current latest.
`sel = none` embeds a call with no argument; the Python default also
replaces an *empty* argument list by the full registry (`if not
combiners:` is true for `[]`). -/
def out_of_sync (allCombiners : List Combiner)
    (sel : Option (List Combiner)) (latest : Option MId) (t : Nat) :
    List Combiner :=
  let combiners :=
    match sel with
    | none => allCombiners
    | some l => if l.isEmpty then allCombiners else l
  combiners.filter (fun c => c.idAt t ≠ latest)

/-- The sleep-poll convergence wait of `ReducerControl.round`:
`wait = 0.0; while len(_out_of_sync(cl)) < len(combiners): sleep(1);
wait += 1; if wait >= round_timeout: break`.  `osync t` is the number of
dispatched combiners out of sync at instant `t`, `n` the number of
dispatched combiners.  The recursion is structural on `r`, the loop
variable `timeout - wait`; the returned value is the elapsed wait. -/
def cwAux (osync : Nat → Nat) (n : Nat) : Nat → Nat → Nat
  | wait, 0 => if osync wait < n then wait + 1 else wait
  | wait, 1 => if osync wait < n then wait + 1 else wait
  | wait, r + 2 =>
    if osync wait < n then cwAux osync n (wait + 1) (r + 1) else wait

/-- Elapsed wait of the convergence loop started at `wait = 0`. -/
def convergenceWait (osync : Nat → Nat) (n : Nat) (timeout : Nat) : Nat :=
  cwAux osync n 0 timeout

/-- Modelled from the spec: the Keras helper's `load_model`
(deserialize).  The binary format is out of scope, so a payload
deserializes to itself. -/
def load_model (data : Rat) : Rat := data

/-- Modelled from the spec: the helper's `increment_average(model,
model_next, i)` — in-place incremental mean, safe only when the running
model is initialized; on an uninitialized running model the Python call
raises (the unbound local `model`), embedded as `Except.error`. -/
def increment_average (model : Option Rat) (model_next : Rat) (i : Nat) :
    Except String Rat :=
  match model with
  | none => Except.error "UnboundLocalError: model"
  | some m => Except.ok (m + (model_next - m) / (i : Rat))

/-- One iteration of the `reduce` loop over a combiner: skip when
`get_model()` yields nothing; otherwise try the incremental fold and fall
back (the bare `except:`) to initializing the running model from this
combiner's data; the counter `i` is incremented after any usable fetch. -/
def reduceStep (acc : Option Rat × Nat) (combiner : Combiner) :
    Option Rat × Nat :=
  match combiner.get_model with
  | none => acc
  | some data =>
    let model := acc.1
    let i := acc.2
    let model' :=
      match increment_average model (load_model data) i with
      | Except.ok m => some m
      | Except.error _ => some (load_model data)
    (model', i + 1)

/-- `ReducerControl.reduce`: fold the updated combiners' models into one
with an incremental mean.  When no combiner yielded a usable artifact the
Python `return model` hits an unbound local and raises; that raise is the
`Except.error` result. -/
def reduce (combiners : List Combiner) : Except String Rat :=
  let acc := combiners.foldl reduceStep (none, 1)
  match acc.1 with
  | some m => Except.ok m
  | none => Except.error "UnboundLocalError: model"

/-- `ReducerControl.commit(model_id, model=None)`.  With a model payload,
the caller-supplied `model_id` is *shadowed* by the repository-assigned id
returned from `set_model` (a fresh `repo` id), the blob is persisted, and
the latest pointer is set to the repository id; the artifact descriptor
(parent = superseded latest) is modelled from the spec.  With no payload,
the latest pointer is set to the caller-supplied id and nothing is
stored. -/
def commit (model_id : MId) (model : Option Rat) (s : RState) : RState :=
  match model with
  | some m =>
    let rid := MId.repo s.repoCtr
    { s with
      stored := s.stored ++ [m]
      repoCtr := s.repoCtr + 1
      artifacts := s.artifacts ++ [⟨rid, s.latest⟩]
      latest := some rid }
  | none => { s with latest := some model_id }

/-- Remote side effects of one round, recorded by combiner name:
`syncs` (`set_model_id` pushes), `dispatches` (training `start` calls),
`validations` (validation `start` calls). -/
structure RoundTrace where
  syncs : List String
  dispatches : List String
  validations : List String
deriving DecidableEq, Repr

def RoundTrace.empty : RoundTrace := ⟨[], [], []⟩

/-- Result of `ReducerControl.round`: the returned value (`Except.error`
embeds an uncaught Python exception escaping `round`), the state after
the call, and the remote side effects. -/
structure RoundResult where
  ret : Except String (Option MId)
  state : RState
  trace : RoundTrace
deriving DecidableEq, Repr

/-- The compute plan formed by `round`: deep copy of the config with
`rounds := 1`, `task := training`, `model_id := latest`. -/
def roundPlan (config : Config) (s : RState) : ComputePlan :=
  { rounds := 1
    round_timeout := config.round_timeout
    clients_required := config.clients_required
    task := Task.training
    model_id := s.latest }

/-- The participating combiners selected by `round` (step 1): those whose
reported state passes the participation policy. -/
def roundParticipants (config : Config) (s : RState) : List Combiner :=
  s.combiners.filter
    (fun c => check_round_participation_policy (roundPlan config s) c.report)

/-- The elapsed wait of the convergence loop in `round`. -/
def roundWait (config : Config) (s : RState) : Nat :=
  let cl := roundParticipants config s
  convergenceWait
    (fun t => (out_of_sync s.combiners (some cl) s.latest t).length)
    cl.length config.round_timeout

/-- The updated set recomputed after the wait, over *all* registered
combiners (the `_out_of_sync()` call with no argument). -/
def roundUpdated (config : Config) (s : RState) : List Combiner :=
  out_of_sync s.combiners none s.latest (roundWait config s)

/-- `ReducerControl.round(config)`: one global round.  Empty registry →
return immediately; participation filter; start-policy gate; sync (only
when a latest model exists — `sync_combiners` is a no-op otherwise) and
dispatch each participant; convergence wait; recompute the updated set
globally; validity gate; reduce; on a produced model draw a fresh uuid,
`commit(model_id, model)` (which persists under a *repository* id and
sets the latest pointer to it), fan out validation to the updated set,
and return the locally drawn uuid. -/
def round (config : Config) (s : RState) : RoundResult :=
  if s.combiners.length < 1 then
    ⟨Except.ok none, s, RoundTrace.empty⟩
  else
    let participants := roundParticipants config s
    let pairs := participants.map (fun c => (c, roundPlan config s))
    if ¬ check_round_start_policy pairs then
      ⟨Except.ok none, s, RoundTrace.empty⟩
    else
      let syncs :=
        if s.latest.isSome then participants.map Combiner.name else []
      let dispatches := participants.map Combiner.name
      let updated := roundUpdated config s
      if ¬ check_round_validity_policy updated then
        ⟨Except.ok none, s, ⟨syncs, dispatches, []⟩⟩
      else
        match reduce updated with
        | Except.error e => ⟨Except.error e, s, ⟨syncs, dispatches, []⟩⟩
        | Except.ok model =>
          let model_id := MId.uuid s.uuidCtr
          let s1 := { s with uuidCtr := s.uuidCtr + 1 }
          let s2 := commit model_id (some model) s1
          ⟨Except.ok (some model_id), s2,
            ⟨syncs, dispatches, updated.map Combiner.name⟩⟩

/-- Result of `ReducerControl.instruct`: `err` holds an exception that
escaped a round (crashing the driver), `state` the state when the call
returns (or raises), `traces` the per-round remote side effects. -/
structure InstructResult where
  err : Option String
  state : RState
  traces : List RoundTrace
deriving DecidableEq, Repr

/-- The `for round in range(int(config['rounds']))` loop of `instruct`:
each round's failure (`None`) is logged and does not abort the remaining
rounds, but an uncaught exception propagates. -/
def instructRounds (config : Config) : Nat → RState → InstructResult
  | 0, s => ⟨none, s, []⟩
  | k + 1, s =>
    let r := round config s
    match r.ret with
    | Except.error e => ⟨some e, r.state, [r.trace]⟩
    | Except.ok _ =>
      let rest := instructRounds config k r.state
      ⟨rest.err, rest.state, r.trace :: rest.traces⟩

/-- `ReducerControl.instruct(config)`: reject when already instructing
(no state change); otherwise pass through `instructing` and `monitoring`
(warning only when no model chain is seeded), run the scheduled rounds,
and return to `idle`. -/
def instruct (config : Config) (s : RState) : InstructResult :=
  if s.state = ReducerState.instructing then
    ⟨none, s, []⟩
  else
    let s2 := { s with state := ReducerState.monitoring }
    let r := instructRounds config config.rounds s2
    match r.err with
    | some e => ⟨some e, r.state, r.traces⟩
    | none => ⟨none, { r.state with state := ReducerState.idle }, r.traces⟩

/-- `ReducerControl.find(name)`. -/
def find (s : RState) (name : String) : Option Combiner :=
  s.combiners.find? (fun c => c.name = name)

/-- `ReducerControl.add(combiner)`: logged no-op unless idle; no-op when
a combiner with the same name is already registered; otherwise append. -/
def add (s : RState) (combiner : Combiner) : RState :=
  if s.state ≠ ReducerState.idle then s
  else if (find s combiner.name).isSome then s
  else { s with combiners := s.combiners ++ [combiner] }

/-- Python's `list.remove(x)`: drop the first element equal to `x`, or
`none` when `x` does not occur. -/
def removeFirst (l : List Combiner) (c : Combiner) :
    Option (List Combiner) :=
  match l with
  | [] => none
  | x :: xs =>
    if x = c then some xs else (removeFirst xs c).map (fun ys => x :: ys)

/-- `ReducerControl.remove(combiner)`: logged no-op unless idle;
otherwise `self.combiners.remove(combiner)`, which raises `ValueError`
when the combiner is not registered — embedded as `Except.error`. -/
def remove (s : RState) (combiner : Combiner) : Except String RState :=
  if s.state ≠ ReducerState.idle then Except.ok s
  else
    match removeFirst s.combiners combiner with
    | some l => Except.ok { s with combiners := l }
    | none => Except.error "ValueError: list.remove(x): x not in list"

/-- `ReducerControl.find_available_combiner()`: first registered combiner
allowing clients, in registration order.  (`allowing_clients` is remote
and advisory; modelled as a predicate argument.) -/
def find_available_combiner (s : RState) (allowing : Combiner → Bool) :
    Option Combiner :=
  s.combiners.find? allowing

/-- `removeFirst` never succeeds on an element that is not in the list. -/
theorem removeFirst_eq_none_of_not_mem :
    ∀ (l : List Combiner) (c : Combiner), c ∉ l → removeFirst l c = none
  | [], _, _ => rfl
  | x :: xs, c, h => by
    have hx : x ≠ c := fun hxc => h (hxc ▸ List.mem_cons_self x xs)
    have hc : c ∉ xs := fun hmem => h (List.mem_cons_of_mem x hmem)
    simp [removeFirst, hx, removeFirst_eq_none_of_not_mem xs c hc]

/-- A successful `removeFirst` yields a sublist of the original list. -/
theorem removeFirst_sublist :
    ∀ (l : List Combiner) (c : Combiner) (l' : List Combiner),
      removeFirst l c = some l' → l'.Sublist l
  | [], _, _, h => by simp [removeFirst] at h
  | x :: xs, c, l', h => by
    rw [removeFirst] at h
    by_cases hx : x = c
    · rw [if_pos hx] at h
      cases h
      exact List.sublist_cons_self x xs
    · rw [if_neg hx] at h
      rcases Option.map_eq_some'.mp h with ⟨ys, hys, hcons⟩
      cases hcons
      exact List.Sublist.cons₂ x (removeFirst_sublist xs c ys hys)

/-- The convergence loop entered at elapsed wait `wait` with `r` the
remaining budget `timeout - wait`: it exits after at most `r` further
sleeps, and at exit either the dispatched out-of-sync (converged) count
has reached the dispatched count or the budget is exhausted. -/
theorem cwAux_le_and_exit (osync : Nat → Nat) (n : Nat) :
    ∀ (r wait : Nat), 0 < r →
      cwAux osync n wait r ≤ wait + r ∧
        (n ≤ osync (cwAux osync n wait r) ∨ cwAux osync n wait r = wait + r)
  | 0, _, h => absurd h (by omega)
  | 1, wait, _ => by
    simp only [cwAux]
    by_cases hc : osync wait < n
    · rw [if_pos hc]
      exact ⟨by omega, Or.inr (by omega)⟩
    · rw [if_neg hc]
      exact ⟨by omega, Or.inl (by omega)⟩
  | r + 2, wait, _ => by
    simp only [cwAux]
    by_cases hc : osync wait < n
    · rw [if_pos hc]
      obtain ⟨h1, h2⟩ :=
        cwAux_le_and_exit osync n (r + 1) (wait + 1) (by omega)
      refine ⟨by omega, ?_⟩
      rcases h2 with h2 | h2
      · exact Or.inl h2
      · exact Or.inr (by omega)
    · rw [if_neg hc]
      exact ⟨by omega, Or.inl (by omega)⟩

/-- With an empty registry, `round` fails at its precondition: no state
change and no remote effect. -/
theorem round_empty_registry (config : Config) (s : RState)
    (h : s.combiners = []) :
    round config s = ⟨Except.ok none, s, RoundTrace.empty⟩ := by
  simp [round, h]

/-- The multi-round loop over an empty registry leaves the state alone
and produces one empty trace per scheduled round. -/
theorem instructRounds_empty_registry (config : Config) :
    ∀ (k : Nat) (s : RState), s.combiners = [] →
      instructRounds config k s =
        ⟨none, s, List.replicate k RoundTrace.empty⟩
  | 0, _, _ => rfl
  | k + 1, s, h => by
    simp only [instructRounds, round_empty_registry config s h,
      instructRounds_empty_registry config k s h, List.replicate_succ]

/-- When the participating set is empty (the registry precondition or
the round-start gate fails), `round` aborts with no update, no state
change and no remote effect. -/
theorem round_start_gate_fail (config : Config) (s : RState)
    (h : roundParticipants config s = []) :
    round config s = ⟨Except.ok none, s, RoundTrace.empty⟩ := by
  by_cases hlen : s.combiners.length < 1
  · simp [round, hlen]
  · simp [round, hlen, h, check_round_start_policy]

/-- When the start gate passes but the recomputed updated set is empty,
the validity gate fails: `round` returns no update with the state
unchanged; the participants were synchronized (when a latest model
exists) and dispatched, but nothing is validated. -/
theorem round_validity_gate_fail (config : Config) (s : RState)
    (hp : roundParticipants config s ≠ []) (hu : roundUpdated config s = []) :
    round config s =
      ⟨Except.ok none, s,
        ⟨if s.latest.isSome then
            (roundParticipants config s).map Combiner.name
          else [],
          (roundParticipants config s).map Combiner.name, []⟩⟩ := by
  have hlen : ¬ s.combiners.length < 1 := by
    intro hlt
    have hnil : s.combiners = [] := by
      cases hcs : s.combiners with
      | nil => rfl
      | cons a l => rw [hcs] at hlt; simp at hlt
    exact hp (by simp [roundParticipants, hnil])
  have hstart : check_round_start_policy
      ((roundParticipants config s).map
        (fun c => (c, roundPlan config s))) = true := by
    simp [check_round_start_policy, List.length_pos, hp]
  simp [round, hlen, hstart, hu, check_round_validity_policy]

/-- Adding one combiner preserves name uniqueness of the registry. -/
theorem add_preserves_names_nodup (s : RState) (c : Combiner)
    (h : (s.combiners.map Combiner.name).Nodup) :
    ((add s c).combiners.map Combiner.name).Nodup := by
  rw [add]
  by_cases h1 : s.state ≠ ReducerState.idle
  · rw [if_pos h1]; exact h
  · rw [if_neg h1]
    by_cases h2 : (find s c.name).isSome
    · rw [if_pos h2]; exact h
    · rw [if_neg h2]
      have hnone : find s c.name = none := Option.not_isSome_iff_eq_none.mp h2
      have hnot : ∀ x ∈ s.combiners, x.name ≠ c.name := by
        intro x hx
        have := List.find?_eq_none.mp hnone x hx
        simpa using this
      simp only [List.map_append, List.map_cons, List.map_nil]
      refine List.Nodup.append h (List.nodup_singleton _) ?_
      intro a ha hb
      rcases List.mem_map.mp ha with ⟨x, hx, hxa⟩
      have hac : a = c.name := by simpa using hb
      exact hnot x hx (hxa.trans hac)

/-- Any sequence of `add` calls preserves name uniqueness. -/
theorem foldl_add_preserves_names_nodup :
    ∀ (cs : List Combiner) (s : RState),
      (s.combiners.map Combiner.name).Nodup →
      (((cs.foldl add s).combiners.map Combiner.name).Nodup)
  | [], _, h => h
  | c :: cs, s, h =>
    foldl_add_preserves_names_nodup cs (add s c)
      (add_preserves_names_nodup s c h)

/-- A successful `remove` preserves name uniqueness (the surviving
registry is a sublist of the original). -/
theorem remove_preserves_names_nodup (s : RState) (c : Combiner)
    (s' : RState) (h : (s.combiners.map Combiner.name).Nodup)
    (hr : remove s c = Except.ok s') :
    (s'.combiners.map Combiner.name).Nodup := by
  rw [remove] at hr
  by_cases h1 : s.state ≠ ReducerState.idle
  · rw [if_pos h1] at hr
    injection hr with h2
    rw [← h2]
    exact h
  · rw [if_neg h1] at hr
    cases hrf : removeFirst s.combiners c with
    | none => rw [hrf] at hr; injection hr
    | some l =>
      rw [hrf] at hr
      injection hr with h2
      rw [← h2]
      have hsub := removeFirst_sublist s.combiners c l hrf
      exact List.Nodup.sublist (hsub.map Combiner.name) h

/-- Claim C10: `commit(model_id)` with no in-memory payload sets the
durable latest pointer to the caller-supplied id and changes nothing else
— in particular no blob is stored in the repository.  This is the public
path by which an out-of-band seed artifact id becomes the latest
committed artifact. -/
theorem commit_seed_sets_latest_no_store :
    ∀ (model_id : MId) (s : RState),
      commit model_id none s = { s with latest := some model_id } :=
  fun _ _ => rfl

/-- Claim C9: the participation policy admits a combiner exactly when its
reported active-client count is at least the plan's required-client
count; concretely, with W1 reporting 5 active clients and W2 reporting 0
against a plan requiring 3, W1 is admitted, W2 is excluded, and the round
start policy on the one-element participant list holds. -/
theorem participation_policy_iff :
    (∀ (compute_plan : ComputePlan) (combiner_state : CombinerState),
      check_round_participation_policy compute_plan combiner_state = true ↔
        compute_plan.clients_required ≤ combiner_state.nr_active_clients) ∧
      check_round_participation_policy
        ⟨1, 10, 3, Task.training, none⟩ ⟨5⟩ = true ∧
      check_round_participation_policy
        ⟨1, 10, 3, Task.training, none⟩ ⟨0⟩ = false ∧
      check_round_start_policy
        [(⟨"W1", 5, [], none, none⟩ : Combiner)] = true := by
  refine ⟨fun compute_plan combiner_state => ?_, by decide, by decide, rfl⟩
  simp only [check_round_participation_policy]
  split <;> simp_all

/-- Claim C8: aggregation over a single combiner holding a usable
artifact returns exactly that artifact's deserialized representation: the
incremental-mean fold acts as the identity on one element (the first fold
attempt hits the uninitialized running model and falls back to direct
initialization). -/
theorem reduce_singleton_identity (c : Combiner) (b : Rat)
    (h : c.get_model = some b) :
    reduce [c] = Except.ok (load_model b) := by
  simp [reduce, reduceStep, h, increment_average, load_model]

/-- Witness for `reduce_singleton_identity` at a concrete combiner with
payload `7`. -/
theorem reduce_singleton_identity_witness :
    reduce [(⟨"w1", 5, [], some (MId.ext 1), some 7⟩ : Combiner)] =
      Except.ok (load_model 7) :=
  reduce_singleton_identity ⟨"w1", 5, [], some (MId.ext 1), some 7⟩ 7 rfl

/-- Claim C6, counterexample: with the orchestrator idle and a handle
that is not registered, `remove` is not a logged no-op — it raises
(Python `list.remove` raises `ValueError` on a missing element). -/
theorem remove_missing_handle_raises :
    remove ⟨ReducerState.idle, [], some (MId.ext 0), [], 0, 0, []⟩
        ⟨"w2", 0, [], none, none⟩ =
      Except.error "ValueError: list.remove(x): x not in list" := rfl

/-- Claim C6 as amended: `remove(handle)` is a no-op on the registry
whenever RoundState is not idle; but when the state is idle and the
handle is not found in the registry, `remove` raises `ValueError` (a hard
error) rather than being a no-op. -/
theorem remove_guard_noop_and_missing_error (s : RState) (c : Combiner) :
    (s.state ≠ ReducerState.idle → remove s c = Except.ok s) ∧
      (s.state = ReducerState.idle → c ∉ s.combiners →
        remove s c =
          Except.error "ValueError: list.remove(x): x not in list") := by
  constructor
  · intro h
    simp [remove, h]
  · intro hs hmem
    simp [remove, hs, removeFirst_eq_none_of_not_mem s.combiners c hmem]

/-- Witness for `remove_guard_noop_and_missing_error`: a monitoring-state
registry where `remove` is a no-op, and an idle empty registry where it
raises. -/
theorem remove_guard_noop_and_missing_error_witness :
    remove ⟨ReducerState.monitoring, [], none, [], 0, 0, []⟩
        ⟨"w9", 0, [], none, none⟩ =
      Except.ok ⟨ReducerState.monitoring, [], none, [], 0, 0, []⟩ ∧
      remove ⟨ReducerState.idle, [⟨"w1", 5, [], none, none⟩], none, [], 0, 0, []⟩
          ⟨"w9", 0, [], none, none⟩ =
        Except.error "ValueError: list.remove(x): x not in list" :=
  ⟨(remove_guard_noop_and_missing_error _ _).1 (by decide),
   (remove_guard_noop_and_missing_error _ _).2 rfl (by decide)⟩

/-- Claim C1, failing run: a fully successful round (one eligible
combiner, converged immediately, usable artifact).  The commit step does
persist the blob under a fresh repository id, sets the durable latest
pointer to that repository id (which differs from the pre-round latest
`ext 0`), and the committed artifact's parent is the pre-round latest —
but the round *returns* the locally drawn `uuid 0`, which is not the id
the latest pointer now holds: `commit` shadows the caller-supplied id
with the repository-assigned one and the caller never sees it. -/
theorem round_return_id_diverges_from_committed_latest :
    (round ⟨1, 3, 3⟩
        ⟨ReducerState.idle, [⟨"w1", 5, [], some (MId.ext 5), some 1⟩],
          some (MId.ext 0), [], 0, 0, []⟩).ret =
      Except.ok (some (MId.uuid 0)) ∧
      (round ⟨1, 3, 3⟩
          ⟨ReducerState.idle, [⟨"w1", 5, [], some (MId.ext 5), some 1⟩],
            some (MId.ext 0), [], 0, 0, []⟩).state.latest =
        some (MId.repo 0) ∧
      MId.uuid 0 ≠ MId.repo 0 ∧
      MId.repo 0 ≠ MId.ext 0 ∧
      (round ⟨1, 3, 3⟩
          ⟨ReducerState.idle, [⟨"w1", 5, [], some (MId.ext 5), some 1⟩],
            some (MId.ext 0), [], 0, 0, []⟩).state.artifacts =
        [⟨MId.repo 0, some (MId.ext 0)⟩] ∧
      (round ⟨1, 3, 3⟩
          ⟨ReducerState.idle, [⟨"w1", 5, [], some (MId.ext 5), some 1⟩],
            some (MId.ext 0), [], 0, 0, []⟩).state.stored = [1] := by
  refine ⟨rfl, rfl, by decide, by decide, rfl, rfl⟩

/-- Claim C2, failing run: over a sequence in which no combiner yields a
usable artifact, `reduce` does not return "nothing" — the Python
`return model` hits an unbound local and raises; and inside `round` the
call `self.reduce(updated)` is not guarded, so the exception propagates
out of the round (orchestrator crash) instead of being treated as round
failure.  Shown on the empty sequence and on a round whose updated set is
one out-of-sync combiner whose `get_model()` yields nothing. -/
theorem reduce_empty_raises_uncaught :
    reduce ([] : List Combiner) =
      Except.error "UnboundLocalError: model" ∧
      (round ⟨1, 3, 3⟩
          ⟨ReducerState.idle, [⟨"w3", 5, [], some (MId.ext 7), none⟩],
            some (MId.ext 0), [], 0, 0, []⟩).ret =
        Except.error "UnboundLocalError: model" := ⟨rfl, rfl⟩

/-- Claim C3: the convergence wait loop of `round` — polling at a fixed
interval of one time unit — always terminates: the elapsed wait never
exceeds the configured `round_timeout`, and at exit either every
dispatched combiner counts as converged (out of sync with the pinned
latest id) or the elapsed wait has reached the timeout; in particular it
terminates by the timeout even when zero combiners converge. -/
theorem convergence_wait_terminates_by_timeout (config : Config)
    (s : RState) (h : 0 < config.round_timeout) :
    roundWait config s ≤ config.round_timeout ∧
      ((roundParticipants config s).length ≤
          (out_of_sync s.combiners (some (roundParticipants config s))
            s.latest (roundWait config s)).length ∨
        roundWait config s = config.round_timeout) := by
  have h2 := cwAux_le_and_exit
    (fun t => (out_of_sync s.combiners (some (roundParticipants config s))
      s.latest t).length)
    (roundParticipants config s).length config.round_timeout 0 h
  simpa [roundWait, convergenceWait] using h2

/-- Witness for `convergence_wait_terminates_by_timeout`: one dispatched
combiner that never goes out of sync; the wait runs for the full timeout
of 3 and exits. -/
theorem convergence_wait_terminates_by_timeout_witness :
    roundWait ⟨1, 3, 3⟩
        ⟨ReducerState.idle, [⟨"w1", 5, [], some (MId.ext 0), none⟩],
          some (MId.ext 0), [], 0, 0, []⟩ ≤ 3 ∧
      ((roundParticipants ⟨1, 3, 3⟩
          ⟨ReducerState.idle, [⟨"w1", 5, [], some (MId.ext 0), none⟩],
            some (MId.ext 0), [], 0, 0, []⟩).length ≤
          (out_of_sync
            [⟨"w1", 5, [], some (MId.ext 0), none⟩]
            (some (roundParticipants ⟨1, 3, 3⟩
              ⟨ReducerState.idle, [⟨"w1", 5, [], some (MId.ext 0), none⟩],
                some (MId.ext 0), [], 0, 0, []⟩))
            (some (MId.ext 0))
            (roundWait ⟨1, 3, 3⟩
              ⟨ReducerState.idle, [⟨"w1", 5, [], some (MId.ext 0), none⟩],
                some (MId.ext 0), [], 0, 0, []⟩)).length ∨
        roundWait ⟨1, 3, 3⟩
            ⟨ReducerState.idle, [⟨"w1", 5, [], some (MId.ext 0), none⟩],
              some (MId.ext 0), [], 0, 0, []⟩ = 3) :=
  convergence_wait_terminates_by_timeout ⟨1, 3, 3⟩
    ⟨ReducerState.idle, [⟨"w1", 5, [], some (MId.ext 0), none⟩],
      some (MId.ext 0), [], 0, 0, []⟩ (by decide)

/-- Claim C4: running the multi-round driver with zero registered
combiners (from any non-instructing entry state) performs no dispatch and
no commit — every scheduled round fails immediately at the
empty-registry precondition, each leaving an empty trace — and the
driver returns with RoundState = idle and the rest of the state (latest
pointer, stored blobs, counters, artifacts) untouched. -/
theorem instruct_zero_workers_idle_no_commit (config : Config)
    (s : RState) (hc : s.combiners = [])
    (hs : ¬ s.state = ReducerState.instructing) :
    instruct config s =
      ⟨none, { s with state := ReducerState.idle },
        List.replicate config.rounds RoundTrace.empty⟩ := by
  rw [instruct, if_neg hs]
  simp only [instructRounds_empty_registry config config.rounds
    { s with state := ReducerState.monitoring } hc]

/-- Witness for `instruct_zero_workers_idle_no_commit`: three scheduled
rounds over an empty registry from the idle state. -/
theorem instruct_zero_workers_idle_no_commit_witness :
    instruct ⟨3, 2, 1⟩
        ⟨ReducerState.idle, [], some (MId.ext 0), [], 0, 0, []⟩ =
      ⟨none, ⟨ReducerState.idle, [], some (MId.ext 0), [], 0, 0, []⟩,
        List.replicate 3 RoundTrace.empty⟩ :=
  instruct_zero_workers_idle_no_commit ⟨3, 2, 1⟩
    ⟨ReducerState.idle, [], some (MId.ext 0), [], 0, 0, []⟩ rfl (by decide)

/-- Claim C5: whenever the round-start gate fails (empty participant
set, which also covers the empty-registry precondition) or the validity
gate fails (empty recomputed updated set), `round` returns "no update"
and the state — in particular the durable latest pointer — is exactly
its pre-round value; a start-gate failure additionally means no combiner
was synchronized or dispatched. -/
theorem round_gate_failure_no_update (config : Config) (s : RState)
    (h : roundParticipants config s = [] ∨ roundUpdated config s = []) :
    (round config s).ret = Except.ok none ∧
      (round config s).state = s ∧
      (round config s).state.latest = s.latest ∧
      (round config s).trace.validations = [] ∧
      (roundParticipants config s = [] →
        (round config s).trace = RoundTrace.empty) := by
  rcases h with hp | hu
  · rw [round_start_gate_fail config s hp]
    exact ⟨rfl, rfl, rfl, rfl, fun _ => rfl⟩
  · by_cases hp : roundParticipants config s = []
    · rw [round_start_gate_fail config s hp]
      exact ⟨rfl, rfl, rfl, rfl, fun _ => rfl⟩
    · rw [round_validity_gate_fail config s hp hu]
      exact ⟨rfl, rfl, rfl, rfl, fun hc => absurd hc hp⟩

/-- Witness for `round_gate_failure_no_update`: one registered combiner
reporting 0 active clients against a plan requiring 3, so the
participant set is empty and the start gate fails. -/
theorem round_gate_failure_no_update_witness :
    (round ⟨1, 3, 3⟩
        ⟨ReducerState.idle, [⟨"w2", 0, [], some (MId.ext 1), none⟩],
          some (MId.ext 0), [], 0, 0, []⟩).ret = Except.ok none ∧
      (round ⟨1, 3, 3⟩
          ⟨ReducerState.idle, [⟨"w2", 0, [], some (MId.ext 1), none⟩],
            some (MId.ext 0), [], 0, 0, []⟩).state =
        ⟨ReducerState.idle, [⟨"w2", 0, [], some (MId.ext 1), none⟩],
          some (MId.ext 0), [], 0, 0, []⟩ ∧
      (round ⟨1, 3, 3⟩
          ⟨ReducerState.idle, [⟨"w2", 0, [], some (MId.ext 1), none⟩],
            some (MId.ext 0), [], 0, 0, []⟩).state.latest =
        some (MId.ext 0) ∧
      (round ⟨1, 3, 3⟩
          ⟨ReducerState.idle, [⟨"w2", 0, [], some (MId.ext 1), none⟩],
            some (MId.ext 0), [], 0, 0, []⟩).trace.validations = [] ∧
      (roundParticipants ⟨1, 3, 3⟩
          ⟨ReducerState.idle, [⟨"w2", 0, [], some (MId.ext 1), none⟩],
            some (MId.ext 0), [], 0, 0, []⟩ = [] →
        (round ⟨1, 3, 3⟩
            ⟨ReducerState.idle, [⟨"w2", 0, [], some (MId.ext 1), none⟩],
              some (MId.ext 0), [], 0, 0, []⟩).trace = RoundTrace.empty) :=
  round_gate_failure_no_update ⟨1, 3, 3⟩
    ⟨ReducerState.idle, [⟨"w2", 0, [], some (MId.ext 1), none⟩],
      some (MId.ext 0), [], 0, 0, []⟩ (Or.inl (by decide))

/-- Claim C7: name uniqueness is an invariant of the registry: `add` is
a no-op when the orchestrator is not idle or a combiner with the same
name is already registered, and otherwise appends, so any sequence of
`add` calls — and any successful `remove` — preserves the property that
no two registered combiners share a name. -/
theorem registry_names_nodup_invariant (s : RState) (cs : List Combiner)
    (c : Combiner) (s' : RState)
    (h : (s.combiners.map Combiner.name).Nodup) :
    (((cs.foldl add s).combiners.map Combiner.name).Nodup) ∧
      (s.state ≠ ReducerState.idle → add s c = s) ∧
      ((find s c.name).isSome → add s c = s) ∧
      (s.state = ReducerState.idle → find s c.name = none →
        (add s c).combiners = s.combiners ++ [c]) ∧
      (remove s c = Except.ok s' →
        (s'.combiners.map Combiner.name).Nodup) := by
  refine ⟨foldl_add_preserves_names_nodup cs s h, ?_, ?_, ?_,
    fun hr => remove_preserves_names_nodup s c s' h hr⟩
  · intro h1
    simp [add, h1]
  · intro h2
    by_cases h1 : s.state ≠ ReducerState.idle
    · simp [add, h1]
    · simp [add, h1, h2]
  · intro h1 h2
    simp [add, h1, h2]

/-- Witness for `registry_names_nodup_invariant`: two successive adds of
the same combiner to an initially empty idle registry. -/
theorem registry_names_nodup_invariant_witness :
    ((([(⟨"w1", 5, [], none, none⟩ : Combiner),
        (⟨"w1", 5, [], none, none⟩ : Combiner)].foldl add
          ⟨ReducerState.idle, [], none, [], 0, 0, []⟩).combiners.map
            Combiner.name).Nodup) ∧
      ((⟨ReducerState.idle, [], none, [], 0, 0, []⟩ : RState).state ≠
          ReducerState.idle →
        add ⟨ReducerState.idle, [], none, [], 0, 0, []⟩
            ⟨"w1", 5, [], none, none⟩ =
          ⟨ReducerState.idle, [], none, [], 0, 0, []⟩) ∧
      ((find ⟨ReducerState.idle, [], none, [], 0, 0, []⟩ "w1").isSome →
        add ⟨ReducerState.idle, [], none, [], 0, 0, []⟩
            ⟨"w1", 5, [], none, none⟩ =
          ⟨ReducerState.idle, [], none, [], 0, 0, []⟩) ∧
      ((⟨ReducerState.idle, [], none, [], 0, 0, []⟩ : RState).state =
          ReducerState.idle →
        find ⟨ReducerState.idle, [], none, [], 0, 0, []⟩ "w1" = none →
        (add ⟨ReducerState.idle, [], none, [], 0, 0, []⟩
            ⟨"w1", 5, [], none, none⟩).combiners =
          [] ++ [⟨"w1", 5, [], none, none⟩]) ∧
      (remove ⟨ReducerState.idle, [], none, [], 0, 0, []⟩
          ⟨"w1", 5, [], none, none⟩ =
        Except.ok ⟨ReducerState.idle, [], none, [], 0, 0, []⟩ →
        (((⟨ReducerState.idle, [], none, [], 0, 0, []⟩ : RState)).combiners.map
          Combiner.name).Nodup) :=
  registry_names_nodup_invariant
    ⟨ReducerState.idle, [], none, [], 0, 0, []⟩
    [⟨"w1", 5, [], none, none⟩, ⟨"w1", 5, [], none, none⟩]
    ⟨"w1", 5, [], none, none⟩
    ⟨ReducerState.idle, [], none, [], 0, 0, []⟩
    (by decide)

end ReducerControl
